import Mathlib

/-!
Verification development for the LoCoBot grasping pipeline
(`locobot/robot/grasp_samplers/grasp.py`).

Depth processing and back-projection are modelled over `ℚ` (exact
arithmetic for the comparisons the source performs on floats); angle
arithmetic is modelled over `ℝ` with `Complex.arg` standing for
`np.arctan2`.  External collaborators (robot driver, transform service,
marker feed) are modelled as explicit parameters / environments, and the
side-effecting control flow as functions returning a result together
with the list of commands issued.
-/

/-- `BB_SIZE = 5`: half-width parameter of the depth averaging window. -/
def BB_SIZE : ℕ := 5

/-- `MAX_DEPTH = 3.0` (meters). -/
def MAX_DEPTH : ℚ := 3

/-- `MIN_DEPTH = 0.1` (meters). -/
def MIN_DEPTH : ℚ := 1/10

/-- A depth image: `h × w` array of per-pixel depth in meters.
Only `data i j` with `i < h`, `j < w` is ever read. -/
structure DepthMap where
  h : ℕ
  w : ℕ
  data : ℕ → ℕ → ℚ

/-- Python 2-D array indexing `depth[i, j]` as used in `_get_z_mean`:
a row index in `[-h, h)` is accepted, a negative index selecting from the
end of the axis (`i % h`, Python's nonnegative remainder); an index outside
that range raises `IndexError`, which the source swallows with
`except: pass` — modelled as `none`. -/
def pyGet (d : DepthMap) (i j : ℤ) : Option ℚ :=
  if -(d.h : ℤ) ≤ i ∧ i < (d.h : ℤ) ∧ -(d.w : ℤ) ≤ j ∧ j < (d.w : ℤ) then
    some (d.data (i % (d.h : ℤ)).toNat (j % (d.w : ℤ)).toNat)
  else none

/-- `Grasper._process_depth`: `cur_depth[cur_depth > MAX_DEPTH] = 0.0`
(strictly greater than `MAX_DEPTH` is zeroed). -/
def process_depth (d : DepthMap) : DepthMap :=
  ⟨d.h, d.w, fun i j => if MAX_DEPTH < d.data i j then 0 else d.data i j⟩

/-- The offset pairs `(i, j)` traversed by the double loop in
`_get_z_mean`: `for i in range(bb * 2): for j in range(bb * 2)`. -/
def windowIdx : List (ℕ × ℕ) :=
  (List.range (BB_SIZE * 2)).flatMap fun i =>
    (List.range (BB_SIZE * 2)).map fun j => (i, j)

/-- One iteration of the `_get_z_mean` loop body: read
`depth[pt[0] - bb + i, pt[1] - bb + j]`; if the read succeeds and
`new_z > MIN_DEPTH`, accumulate it into the running sum and count. -/
def zStep (d : DepthMap) (r c : ℤ) (acc : ℚ × ℕ) (ij : ℕ × ℕ) : ℚ × ℕ :=
  match pyGet d (r - (BB_SIZE : ℤ) + ij.1) (c - (BB_SIZE : ℤ) + ij.2) with
  | some z => if MIN_DEPTH < z then (acc.1 + z, acc.2 + 1) else acc
  | none => acc

/-- The `(sum_z, nps)` pair accumulated by `_get_z_mean`. -/
def zSumCount (d : DepthMap) (r c : ℤ) : ℚ × ℕ :=
  windowIdx.foldl (zStep d r c) (0, 0)

/-- `Grasper._get_z_mean`: mean of the valid depth samples in the window,
`0.0` when no sample was counted. -/
def get_z_mean (d : DepthMap) (r c : ℤ) : ℚ :=
  let sc := zSumCount d r c
  if sc.2 = 0 then 0 else sc.1 / (sc.2 : ℚ)

/-- Error outcomes of `_get_3D_camera`: `RuntimeError` when no depth is
available, `numpy.linalg.LinAlgError` when the back-projection matrix is
singular. -/
inductive GraspErr
  | depthUnavailable
  | projectionSingular
deriving DecidableEq

/-- A 3×4 camera projection matrix `P` (rational snapshot). -/
structure ProjMat where
  p00 : ℚ
  p01 : ℚ
  p02 : ℚ
  p03 : ℚ
  p10 : ℚ
  p11 : ℚ
  p12 : ℚ
  p13 : ℚ
  p20 : ℚ
  p21 : ℚ
  p22 : ℚ
  p23 : ℚ

/-- Determinant of a 3×3 matrix given row-wise. -/
def det3 (a b c d e f g h i : ℚ) : ℚ :=
  a * (e * i - f * h) - b * (d * i - f * g) + c * (d * h - e * g)

/-- Determinant of `P_n`, the 3×3 matrix built in `_get_3D_camera`:
first two columns of `P`, third column `P[:, 3] + P[:, 2] * z`. -/
def backprojDet (P : ProjMat) (z : ℚ) : ℚ :=
  det3 P.p00 P.p01 (P.p03 + P.p02 * z)
       P.p10 P.p11 (P.p13 + P.p12 * z)
       P.p20 P.p21 (P.p23 + P.p22 * z)

/-- `Grasper._get_3D_camera` (with `norm_z = None`): process the depth map,
average the depth around `pt = (row, col)`; a zero mean raises
`RuntimeError`; otherwise solve `P_n · temp_p = (u, v, 1)` (the source
inverts `P_n` with `np.linalg.inv` and multiplies — modelled exactly by
Cramer's rule, with a singular `P_n` as the error case), normalize by the
last component, and overwrite the last component with `z`. -/
def get_3D_camera (d : DepthMap) (P : ProjMat) (pt : ℤ × ℤ) :
    Except GraspErr (ℚ × ℚ × ℚ) :=
  let cur := process_depth d
  let z := get_z_mean cur pt.1 pt.2
  if z = 0 then .error .depthUnavailable
  else
    let u : ℚ := (pt.2 : ℚ)
    let v : ℚ := (pt.1 : ℚ)
    let m02 := P.p03 + P.p02 * z
    let m12 := P.p13 + P.p12 * z
    let m22 := P.p23 + P.p22 * z
    let dt := backprojDet P z
    if dt = 0 then .error .projectionSingular
    else
      let tx := det3 u P.p01 m02 v P.p11 m12 1 P.p21 m22 / dt
      let ty := det3 P.p00 u m02 P.p10 v m12 P.p20 1 m22 / dt
      let tz := det3 P.p00 P.p01 u P.p10 P.p11 v P.p20 P.p21 1 / dt
      .ok (tx / tz, ty / tz, z)

/-- `np.arctan2 y x`, modelled as the argument of the complex number
`x + y·i` (range `(-π, π]`, and `arctan2 0 0 = 0 = Complex.arg 0`). -/
noncomputable def atan2 (y x : ℝ) : ℝ := Complex.arg ⟨x, y⟩

/-- `Grasper.get_grasp_angle` on a grasp pose `(x, y, a)`
(`grasp_pose[0] = x`, `grasp_pose[1] = y`, `grasp_pose[2] = a`):
`delta = a + arctan2(y, x)`; if `delta > π/2` subtract `π`, else if
`delta < -π/2` add `2π`. -/
noncomputable def get_grasp_angle (x y a : ℝ) : ℝ :=
  let cur := atan2 y x
  let delta := a + cur
  if Real.pi / 2 < delta then delta - Real.pi
  else if delta < -(Real.pi / 2) then 2 * Real.pi + delta
  else delta

/-- The stale-marker nudge in `_find_pose_error`:
`joint_angles[0] -= np.deg2rad(2) * np.sign(joint_angles[0])`
(`np.deg2rad 2 = π / 90`).  After the `t`-th stale read of the polling
loop the commanded base-joint angle is `nudge^[t + 1]` of the initial
one. -/
noncomputable def nudge (a : ℝ) : ℝ := a - Real.pi / 90 * Real.sign a

/-- A `/visualization_marker` message as read from `self.marker_data`:
header stamp (seconds) and marker position. -/
structure MarkerObs where
  stamp : ℤ
  px : ℚ
  py : ℚ
  pz : ℚ

/-- Environment of `_find_pose_error`: the value of the asynchronously
written `self.marker_data` field at its `k`-th read, the clock
`rospy.Time.now().secs` at the `k`-th poll, the external
`transformPoint`-to-base-frame service, and the `ar_tag` pose obtained
from `lookupTransform` (forward kinematics). -/
structure CalibEnv where
  md : ℕ → Option MarkerObs
  now : ℕ → ℤ
  convertFrames : ℚ × ℚ × ℚ → ℚ × ℚ × ℚ
  arTag : ℚ × ℚ × ℚ

/-- The staleness test of the polling loop: the marker is unusable when
`marker_data is None` or `rospy.Time.now().secs - stamp.secs > 1.0`. -/
def staleAt (env : CalibEnv) (k : ℕ) : Bool :=
  match env.md k with
  | none => true
  | some m => decide ((1 : ℤ) < env.now k - m.stamp)

/-- The `for _ in range(5)` polling loop of `_find_pose_error`: on a
stale or missing read, nudge the base joint (see `nudge`) and re-poll;
stop early on a fresh read.  Returns the index of the read that is
current when the loop exits (the base-joint angle evolves alongside as
iterated `nudge`, and does not feed back into the drift estimate). -/
def pollStop (env : CalibEnv) : ℕ → ℕ → ℕ
  | k, 0 => k
  | k, fuel + 1 =>
    if staleAt env k then pollStop env (k + 1) fuel else k

/-- `Grasper._find_pose_error`, from the polling loop on (the earlier
camera pan/tilt and wrist commands are outward side effects that do not
feed back into the result).  After the loop: if `self.marker_data is
None` return `(0, 0)`; otherwise transform the marker position to the
base frame and return the x/y difference of the kinematic `ar_tag` pose
minus the observed pose. -/
def find_pose_error (env : CalibEnv) : ℚ × ℚ :=
  let k := pollStop env 0 5
  match env.md k with
  | none => (0, 0)
  | some m =>
    let obs := env.convertFrames (m.px, m.py, m.pz)
    (env.arTag.1 - obs.1, env.arTag.2.1 - obs.2.1)

/-- Commands issued by `Grasper.reset`, in order. -/
inductive REvent
  | goHome
  | setJoints
  | gripperOpen
  | setPan (p : ℚ)
  | setTilt (t : ℚ)
deriving DecidableEq

/-- The retry loop of `Grasper.reset`: each attempt issues
`arm.go_home()` then `arm.set_joint_positions(retract_position)`
(whose success for the `k`-th attempt is `env k`), stopping at the
first success, for at most `fuel` attempts. -/
def resetTries (env : ℕ → Bool) : ℕ → ℕ → Bool × List REvent
  | _, 0 => (false, [])
  | k, fuel + 1 =>
    if env k then (true, [.goHome, .setJoints])
    else
      let r := resetTries env (k + 1) fuel
      (r.1, .goHome :: .setJoints :: r.2)

/-- `Grasper.reset` (`n_tries = 5`, `reset_pan = 0.0`,
`reset_tilt = 0.8`): run the arm retry loop, then unconditionally open
the gripper and recenter the camera; return the arm-step success. -/
def reset (env : ℕ → Bool) : Bool × List REvent :=
  let r := resetTries env 0 5
  (r.1, r.2 ++ [.gripperOpen, .setPan 0, .setTilt (4/5)])

/-- Number of home-then-retract attempts `reset` makes for a given
environment: the index of the first success plus one, capped at 5. -/
def armAttempts (env : ℕ → Bool) : ℕ :=
  if env 0 then 1 else if env 1 then 2 else if env 2 then 3
  else if env 3 then 4 else 5

/-- The four pose-setting stages of `Grasper.grasp`. -/
inductive Stage
  | preGrasp1
  | preGrasp2
  | grasping
  | retract
deriving DecidableEq

/-- Commands issued during `Grasper.grasp`: the `k`-th
`set_ee_pose_pitch_roll` attempt of a stage (with its target position
and roll), the `_find_pose_error` calibration call, and the gripper
close. -/
inductive GEvent
  | poseAttempt (s : Stage) (pos : ℝ × ℝ × ℝ) (roll : ℝ) (k : ℕ)
  | calibrate
  | gripperClose

/-- Position of a command in the stage order
`PreGrasp1 → Correcting → PreGrasp2 → Grasping → Closing → Retract`. -/
def stageIdx : Stage → ℕ
  | .preGrasp1 => 0
  | .preGrasp2 => 2
  | .grasping => 3
  | .retract => 5

/-- Stage-order position of an event (calibration sits between
`PreGrasp1` and `PreGrasp2`, the gripper close between `Grasping` and
`Retract`). -/
def eventIdx : GEvent → ℕ
  | .poseAttempt s _ _ _ => stageIdx s
  | .calibrate => 1
  | .gripperClose => 4

/-- `pregrasp_height = 0.25`. -/
noncomputable def pregraspHeight : ℝ := 1/4

/-- `grasp_height = 0.13`. -/
noncomputable def graspHeight : ℝ := 13/100

/-- `x_offset = 0.0`. -/
noncomputable def xOffset : ℝ := 0

/-- `y_offset = 0.03`. -/
noncomputable def yOffset : ℝ := 3/100

/-- The retry loop of `Grasper.set_pose`: attempt
`arm.set_ee_pose_pitch_roll` (success of the `k`-th attempt at stage `s`
is `env s k`) up to `fuel` times, stopping at the first success. -/
def setPoseAux (env : Stage → ℕ → Bool) (s : Stage) (pos : ℝ × ℝ × ℝ)
    (roll : ℝ) : ℕ → ℕ → Bool × List GEvent
  | _, 0 => (false, [])
  | k, fuel + 1 =>
    if env s k then (true, [.poseAttempt s pos roll k])
    else
      let r := setPoseAux env s pos roll (k + 1) fuel
      (r.1, .poseAttempt s pos roll k :: r.2)

/-- `Grasper.set_pose` (`n_tries = 5`). -/
def set_pose (env : Stage → ℕ → Bool) (s : Stage) (pos : ℝ × ℝ × ℝ)
    (roll : ℝ) : Bool × List GEvent :=
  setPoseAux env s pos roll 0 5

/-- `Grasper.grasp` on `grasp_pose = (x, y, a)`: pre-grasp with zero
roll; on success run the calibration estimator (`drift` is the pair
`_find_pose_error` returns) and shift the target by the drift plus the
fixed offsets; then corrected pre-grasp, descent, gripper close, and
retract, each with the normalized grasp angle as roll.  Any pose stage
failing returns `False` immediately. -/
noncomputable def grasp (env : Stage → ℕ → Bool) (drift : ℝ × ℝ)
    (gp : ℝ × ℝ × ℝ) : Bool × List GEvent :=
  let angle := get_grasp_angle gp.1 gp.2.1 gp.2.2
  let r1 := set_pose env .preGrasp1 (gp.1, gp.2.1, pregraspHeight) 0
  if r1.1 = false then (false, r1.2)
  else
    let x := gp.1 + (drift.1 + xOffset)
    let y := gp.2.1 + (drift.2 + yOffset)
    let r2 := set_pose env .preGrasp2 (x, y, pregraspHeight) angle
    if r2.1 = false then (false, r1.2 ++ GEvent.calibrate :: r2.2)
    else
      let r3 := set_pose env .grasping (x, y, graspHeight) angle
      if r3.1 = false then
        (false, r1.2 ++ GEvent.calibrate :: (r2.2 ++ r3.2))
      else
        let r4 := set_pose env .retract (x, y, pregraspHeight) angle
        if r4.1 = false then
          (false, r1.2 ++ GEvent.calibrate ::
            (r2.2 ++ r3.2 ++ GEvent.gripperClose :: r4.2))
        else
          (true, r1.2 ++ GEvent.calibrate ::
            (r2.2 ++ r3.2 ++ GEvent.gripperClose :: r4.2))

/-- `Grasper.compute_grasp`, after the predictor returned `pred` (the
image crop and logging do not feed back): shift the pixel indices by the
crop origin, replace the first two entries by the x/y of the 3D
base-frame point (`get3D` standing for `self.get_3D`), and rewrite the
angle entry with itself. -/
def compute_grasp (pred : List ℚ) (get3D : List ℚ → ℚ × ℚ × ℚ)
    (dims : (ℚ × ℚ) × (ℚ × ℚ)) : List ℚ :=
  let g1 := pred.set 0 (pred.getD 0 0 + dims.1.1)
  let g2 := g1.set 1 (g1.getD 1 0 + dims.2.1)
  let p := get3D (g2.take 2)
  let g3 := [p.1, p.2.1] ++ g2.drop 2
  g3.set 2 (g3.getD 2 0)

lemma mem_windowIdx {p : ℕ × ℕ} (hp : p ∈ windowIdx) :
    p.1 < BB_SIZE * 2 ∧ p.2 < BB_SIZE * 2 := by
  simp only [windowIdx, List.mem_flatMap, List.mem_map, List.mem_range] at hp
  obtain ⟨i, hi, j, hj, rfl⟩ := hp
  exact ⟨hi, hj⟩

lemma zStep_inv (d : DepthMap) (r c : ℤ) (acc : ℚ × ℕ) (p : ℕ × ℕ)
    (h1 : 0 ≤ acc.1) (h2 : acc.2 ≠ 0 → 0 < acc.1) :
    0 ≤ (zStep d r c acc p).1 ∧
      ((zStep d r c acc p).2 ≠ 0 → 0 < (zStep d r c acc p).1) := by
  cases h : pyGet d (r - (BB_SIZE : ℤ) + p.1) (c - (BB_SIZE : ℤ) + p.2) with
  | none => simp only [zStep, h]; exact ⟨h1, h2⟩
  | some z =>
    simp only [zStep, h]
    split_ifs with hz
    · have hz' : (0 : ℚ) < z := lt_trans (by norm_num [MIN_DEPTH]) hz
      exact ⟨add_nonneg h1 hz'.le, fun _ => add_pos_of_nonneg_of_pos h1 hz'⟩
    · exact ⟨h1, h2⟩

lemma foldl_zStep_inv (d : DepthMap) (r c : ℤ) (l : List (ℕ × ℕ)) :
    ∀ acc : ℚ × ℕ, 0 ≤ acc.1 → (acc.2 ≠ 0 → 0 < acc.1) →
      0 ≤ (l.foldl (zStep d r c) acc).1 ∧
        ((l.foldl (zStep d r c) acc).2 ≠ 0 →
          0 < (l.foldl (zStep d r c) acc).1) := by
  induction l with
  | nil => intro acc h1 h2; exact ⟨h1, h2⟩
  | cons p t ih =>
    intro acc h1 h2
    simp only [List.foldl_cons]
    exact ih _ (zStep_inv d r c acc p h1 h2).1 (zStep_inv d r c acc p h1 h2).2

lemma get_z_mean_ne_zero (d : DepthMap) (r c : ℤ)
    (h : (zSumCount d r c).2 ≠ 0) : get_z_mean d r c ≠ 0 := by
  have hpos := (foldl_zStep_inv d r c windowIdx (0, 0) le_rfl (by simp)).2 h
  have hc : (0 : ℚ) < ((zSumCount d r c).2 : ℚ) := by
    exact_mod_cast Nat.pos_of_ne_zero h
  simp only [get_z_mean, if_neg h]
  exact ne_of_gt (div_pos hpos hc)

/-- C4: if the neighborhood of the pixel contains at least one valid
depth sample (the count accumulated by `_get_z_mean` over the processed
depth map is nonzero) and the back-projection matrix `P_n` is
invertible, `_get_3D_camera` returns a 3D camera-frame point; if the
neighborhood contains no valid sample, it fails with the
depth-unavailable error (`RuntimeError`) before any projection work. -/
theorem get_3D_camera_spec (d : DepthMap) (P : ProjMat) (pt : ℤ × ℤ) :
    ((zSumCount (process_depth d) pt.1 pt.2).2 ≠ 0 →
      backprojDet P (get_z_mean (process_depth d) pt.1 pt.2) ≠ 0 →
      ∃ p, get_3D_camera d P pt = Except.ok p)
    ∧ ((zSumCount (process_depth d) pt.1 pt.2).2 = 0 →
      get_3D_camera d P pt = Except.error GraspErr.depthUnavailable) := by
  constructor
  · intro hn hd
    have hz := get_z_mean_ne_zero (process_depth d) pt.1 pt.2 hn
    simp only [get_3D_camera]
    rw [if_neg hz, if_neg hd]
    exact ⟨_, rfl⟩
  · intro h0
    have hz : get_z_mean (process_depth d) pt.1 pt.2 = 0 := by
      simp only [get_z_mean, if_pos h0]
    simp only [get_3D_camera]
    rw [if_pos hz]

/-- All-ones 10×10 depth map (every sample valid). -/
def d4 : DepthMap := ⟨10, 10, fun _ _ => 1⟩

/-- Identity-like 3×4 projection matrix. -/
def P4 : ProjMat := ⟨1, 0, 0, 0, 0, 1, 0, 0, 0, 0, 1, 0⟩

/-- 1×1 depth map with value `0` (no valid sample anywhere). -/
def d0map : DepthMap := ⟨1, 1, fun _ _ => 0⟩

set_option maxRecDepth 8000 in
/-- Witness for `get_3D_camera_spec`: a valid neighborhood yields a
point, an all-invalid one yields the depth error. -/
theorem get_3D_camera_spec_witness :
    (∃ p, get_3D_camera d4 P4 (2, 3) = Except.ok p)
    ∧ get_3D_camera d0map P4 (0, 0) =
        Except.error GraspErr.depthUnavailable :=
  ⟨(get_3D_camera_spec d4 P4 (2, 3)).1
      (by norm_num [zSumCount, windowIdx, BB_SIZE, List.range_succ, zStep,
        pyGet, MIN_DEPTH, MAX_DEPTH, process_depth, d4])
      (by norm_num [backprojDet, det3, P4, get_z_mean, zSumCount, windowIdx,
        BB_SIZE, List.range_succ, zStep, pyGet, MIN_DEPTH, MAX_DEPTH,
        process_depth, d4]),
   (get_3D_camera_spec d0map P4 (0, 0)).2
      (by norm_num [zSumCount, windowIdx, BB_SIZE, List.range_succ, zStep,
        pyGet, MIN_DEPTH, MAX_DEPTH, process_depth, d0map])⟩

/-- 1×1 depth map whose only entry is exactly `MAX_DEPTH = 3.0`. -/
def c3Map : DepthMap := ⟨1, 1, fun _ _ => 3⟩

set_option maxRecDepth 8000 in
/-- C3 (counterexample): a depth value exactly equal to `3.0` is NOT
zeroed by the max-depth filter (`cur_depth > MAX_DEPTH` is strict), and
it is counted by the neighborhood averaging, contradicting the claim
that the `3.0` boundary is exclusive for the filter. -/
theorem depth_boundary_counterexample :
    (process_depth c3Map).data 0 0 = 3
    ∧ get_z_mean (process_depth c3Map) 0 0 = 3
    ∧ (3 : ℚ) ≠ 0 := by
  refine ⟨by norm_num [process_depth, c3Map, MAX_DEPTH], ?_, by norm_num⟩
  norm_num [get_z_mean, zSumCount, windowIdx, BB_SIZE, List.range_succ,
    zStep, pyGet, MIN_DEPTH, MAX_DEPTH, process_depth, c3Map]

/-- C3 (amended): the max-depth filter zeroes exactly the values
strictly above `3.0` (a value exactly `3.0` is retained), while the
averaging sum excludes every sample `≤ 0.1`, hence the `0.1` boundary is
exclusive: a window all of whose readable samples are `≤ 0.1`
contributes nothing and the mean is `0`. -/
theorem depth_boundary_semantics :
    (∀ (d : DepthMap) (i j : ℕ), d.data i j ≤ MAX_DEPTH →
        (process_depth d).data i j = d.data i j)
    ∧ (∀ (d : DepthMap) (i j : ℕ), MAX_DEPTH < d.data i j →
        (process_depth d).data i j = 0)
    ∧ (∀ (d : DepthMap) (r c : ℤ),
        (∀ i < BB_SIZE * 2, ∀ j < BB_SIZE * 2, ∀ z : ℚ,
          pyGet d (r - (BB_SIZE : ℤ) + i) (c - (BB_SIZE : ℤ) + j) = some z →
          z ≤ MIN_DEPTH) →
        get_z_mean d r c = 0) := by
  refine ⟨fun d i j h => by simp [process_depth, not_lt.2 h],
    fun d i j h => by simp [process_depth, h], fun d r c h => ?_⟩
  have key : ∀ l : List (ℕ × ℕ), (∀ p ∈ l, p.1 < BB_SIZE * 2 ∧ p.2 < BB_SIZE * 2) →
      l.foldl (zStep d r c) (0, 0) = (0, 0) := by
    intro l hl
    induction l with
    | nil => rfl
    | cons p t ih =>
      have hstep : zStep d r c (0, 0) p = (0, 0) := by
        cases hp : pyGet d (r - (BB_SIZE : ℤ) + p.1) (c - (BB_SIZE : ℤ) + p.2) with
        | none => simp [zStep, hp]
        | some z =>
          have hz := h p.1 (hl p (by simp)).1 p.2 (hl p (by simp)).2 z hp
          simp [zStep, hp, not_lt.2 hz]
      simp only [List.foldl_cons, hstep]
      exact ih fun q hq => hl q (by simp [hq])
  have h0 : zSumCount d r c = (0, 0) := key windowIdx fun p hp => mem_windowIdx hp
  simp [get_z_mean, h0]

/-- All-`0.1` 1×1 depth map: the boundary value for the averaging. -/
def c3MinMap : DepthMap := ⟨1, 1, fun _ _ => 1/10⟩

set_option maxRecDepth 8000 in
/-- Witness for `depth_boundary_semantics` at concrete inputs: the
filter keeps a `3.0` entry and zeroes a `3.5` entry, and a map whose
entries all equal `0.1` averages to `0`. -/
theorem depth_boundary_semantics_witness :
    (process_depth c3Map).data 0 0 = c3Map.data 0 0
    ∧ (process_depth (DepthMap.mk 1 1 fun _ _ => 7/2)).data 0 0 = 0
    ∧ get_z_mean c3MinMap 0 0 = 0 :=
  ⟨depth_boundary_semantics.1 c3Map 0 0 (by norm_num [c3Map, MAX_DEPTH]),
   depth_boundary_semantics.2.1 (DepthMap.mk 1 1 fun _ _ => 7/2) 0 0
     (by norm_num [MAX_DEPTH]),
   depth_boundary_semantics.2.2 c3MinMap 0 0 (by
     intro i _ j _ z hz
     simp only [c3MinMap, pyGet] at hz
     split_ifs at hz with hcond
     all_goals simp_all [MIN_DEPTH])⟩

/-- The offset pairs of the window the spec describes: row and column
distances at most `BB_SIZE` from the pixel in every direction, an 11×11
window. -/
def specWindowIdx : List (ℕ × ℕ) :=
  (List.range (BB_SIZE * 2 + 1)).flatMap fun i =>
    (List.range (BB_SIZE * 2 + 1)).map fun j => (i, j)

/-- Modelled from the spec's words (C5): depth averaging over a square
neighborhood centered on the pixel with half-width 5 in every direction,
with the same per-sample validity rule and indexing as the source. -/
def get_z_mean_spec (d : DepthMap) (r c : ℤ) : ℚ :=
  let sc := specWindowIdx.foldl (zStep d r c) (0, 0)
  if sc.2 = 0 then 0 else sc.1 / (sc.2 : ℚ)

/-- 11×11 depth map whose only valid sample sits at offset `(+5, 0)`
from the center pixel `(5, 5)`. -/
def m5 : DepthMap := ⟨11, 11, fun i j => if i = 10 ∧ j = 5 then 1 else 0⟩

set_option maxRecDepth 8000 in
/-- C5 (counterexample): the code's averaging window is NOT the centered
±5 square: a valid sample at row offset `+5` is ignored by
`_get_z_mean` (mean `0`), while the spec's centered window would average
it (mean `1`). -/
theorem z_mean_window_counterexample :
    get_z_mean m5 5 5 = 0 ∧ get_z_mean_spec m5 5 5 = 1 := by
  constructor
  · norm_num +decide [get_z_mean, zSumCount, windowIdx, BB_SIZE,
      List.range_succ, zStep, pyGet, MIN_DEPTH, m5]
  · norm_num +decide [get_z_mean_spec, specWindowIdx, BB_SIZE,
      List.range_succ, zStep, pyGet, MIN_DEPTH, m5]

/-- 11×11 depth map whose only valid sample sits at offset `(-5, -5)`
from the center pixel `(5, 5)`. -/
def mLow : DepthMap := ⟨11, 11, fun i j => if i = 0 ∧ j = 0 then 1 else 0⟩

/-- C5 (amended): the depth average of `_get_z_mean` is taken over the
samples at row and column offsets in `[-5, +4]` from the pixel (a 10×10
window, distance 5 on the low side but only 4 on the high side): the
result depends only on the reads at those offsets, and the offset
`(-5, -5)` sample is included. -/
theorem z_mean_window :
    (∀ (d₁ d₂ : DepthMap) (r c : ℤ),
        (∀ i < BB_SIZE * 2, ∀ j < BB_SIZE * 2,
          pyGet d₁ (r - (BB_SIZE : ℤ) + i) (c - (BB_SIZE : ℤ) + j) =
            pyGet d₂ (r - (BB_SIZE : ℤ) + i) (c - (BB_SIZE : ℤ) + j)) →
        get_z_mean d₁ r c = get_z_mean d₂ r c)
    ∧ get_z_mean mLow 5 5 = 1 := by
  constructor
  · intro d₁ d₂ r c h
    have hfold : zSumCount d₁ r c = zSumCount d₂ r c := by
      unfold zSumCount
      apply List.foldl_ext
      intro acc p hp
      have hb := mem_windowIdx hp
      unfold zStep
      rw [h p.1 hb.1 p.2 hb.2]
    unfold get_z_mean
    rw [hfold]
  · norm_num +decide [get_z_mean, zSumCount, windowIdx, BB_SIZE,
      List.range_succ, zStep, pyGet, MIN_DEPTH, mLow]

/-- Map equal to `mLow` except at cell `(10, 10)`, which lies outside
the `[-5, +4]` window of pixel `(5, 5)`. -/
def mHi : DepthMap :=
  ⟨11, 11, fun i j => if i = 10 ∧ j = 10 then 9 else mLow.data i j⟩

/-- Witness for `z_mean_window`: the locality statement applied to two
maps that differ only outside the `[-5, +4]` window of pixel `(5, 5)`. -/
theorem z_mean_window_witness :
    get_z_mean mLow 5 5 = get_z_mean mHi 5 5 :=
  z_mean_window.1 mLow mHi 5 5 (by decide)

/-- 10×10 depth map whose only valid depth sits on the far (bottom)
border row `9`. -/
def mFar : DepthMap := ⟨10, 10, fun i _ => if i = 9 then 1 else 0⟩

set_option maxRecDepth 8000 in
/-- C10: the `_get_z_mean` loop builds negative indices for pixels whose
row or column is below the half-width, and Python indexing resolves a
negative index to the opposite border (`d.data (i + h)`) instead of
skipping it; only indices at or past the upper bound raise the swallowed
`IndexError`.  Concretely, pixel `(0, 0)` of `mFar` averages the
far-border depth: mean `1` instead of `0`. -/
theorem negative_index_wrap :
    (∀ (d : DepthMap) (i j : ℤ), -(d.h : ℤ) ≤ i → i < 0 → 0 ≤ j →
        j < (d.w : ℤ) →
        pyGet d i j = some (d.data (i + (d.h : ℤ)).toNat j.toNat))
    ∧ (∀ (d : DepthMap) (i j : ℤ), (d.h : ℤ) ≤ i ∨ (d.w : ℤ) ≤ j →
        pyGet d i j = none)
    ∧ get_z_mean mFar 0 0 = 1 := by
  refine ⟨fun d i j h1 h2 h3 h4 => ?_, fun d i j h => ?_, ?_⟩
  · have hh : (0 : ℤ) < (d.h : ℤ) := by linarith
    have hcond : -(d.h : ℤ) ≤ i ∧ i < (d.h : ℤ) ∧ -(d.w : ℤ) ≤ j ∧
        j < (d.w : ℤ) := ⟨h1, lt_trans h2 hh, by linarith, h4⟩
    rw [pyGet, if_pos hcond]
    have hrow : i % (d.h : ℤ) = i + (d.h : ℤ) := by
      have e1 := Int.add_mul_emod_self_left i ((d.h : ℤ)) 1
      rw [mul_one] at e1
      have e2 : (i + (d.h : ℤ)) % (d.h : ℤ) = i + (d.h : ℤ) :=
        Int.emod_eq_of_lt (by linarith) (by linarith)
      rw [← e1, e2]
    have hcol : j % (d.w : ℤ) = j := Int.emod_eq_of_lt h3 h4
    rw [hrow, hcol]
  · rw [pyGet, if_neg]
    rintro ⟨c1, c2, c3, c4⟩
    rcases h with h | h
    · exact absurd c2 (not_lt.2 h)
    · exact absurd c4 (not_lt.2 h)
  · norm_num +decide [get_z_mean, zSumCount, windowIdx, BB_SIZE,
      List.range_succ, zStep, pyGet, MIN_DEPTH, mFar]

/-- Witness for `negative_index_wrap`: reading row `-1` of `mFar`
resolves to border row `9`, reading row `10` is skipped. -/
theorem negative_index_wrap_witness :
    pyGet mFar (-1) 0 =
      some (mFar.data ((-1 : ℤ) + (mFar.h : ℤ)).toNat (0 : ℤ).toNat)
    ∧ pyGet mFar 10 0 = none :=
  ⟨negative_index_wrap.1 mFar (-1) 0 (by decide) (by decide) (by decide)
      (by decide),
   negative_index_wrap.2.1 mFar 10 0 (Or.inl (by decide))⟩

lemma atan2_zero_one : atan2 0 1 = 0 := by
  have h1 : (⟨1, 0⟩ : ℂ) = 1 := by
    apply Complex.ext
    · simp
    · simp
  rw [atan2, h1, Complex.arg_one]

/-- C1 (counterexample): the wrapped grasp angle is NOT always in
`[-π/2, π/2]`: for the pose `(1, 0, -2)` the sum is `-2 < -π/2`, the
wrap adds `2π`, and the result `2π - 2 > π/2` escapes the interval. -/
theorem get_grasp_angle_counterexample :
    ¬(-(Real.pi / 2) ≤ get_grasp_angle 1 0 (-2)
      ∧ get_grasp_angle 1 0 (-2) ≤ Real.pi / 2) := by
  have h3 := Real.pi_gt_three
  have h4 := Real.pi_lt_d2
  have hval : get_grasp_angle 1 0 (-2) = 2 * Real.pi + (-2 + 0) := by
    rw [get_grasp_angle, atan2_zero_one]
    rw [if_neg (by linarith), if_pos (by linarith)]
  rw [hval]
  rintro ⟨-, hub⟩
  linarith

/-- C1 (amended): the wrapped grasp angle lies in `[-π/2, π/2]` for all
poses whose raw sum `angle + arctan2(y, x)` lies in `[-π/2, 3π/2]`; the
branch for sums below `-π/2` adds `2π` rather than `π` and can leave the
interval. -/
theorem get_grasp_angle_range (x y a : ℝ)
    (h1 : -(Real.pi / 2) ≤ a + atan2 y x)
    (h2 : a + atan2 y x ≤ 3 * Real.pi / 2) :
    -(Real.pi / 2) ≤ get_grasp_angle x y a
      ∧ get_grasp_angle x y a ≤ Real.pi / 2 := by
  have hpi := Real.pi_pos
  rw [get_grasp_angle]
  split_ifs with hA hB
  · constructor <;> linarith
  · constructor <;> linarith
  · constructor <;> linarith

/-- Witness for `get_grasp_angle_range` at the pose `(1, 0, 0)`. -/
theorem get_grasp_angle_range_witness :
    -(Real.pi / 2) ≤ get_grasp_angle 1 0 0
      ∧ get_grasp_angle 1 0 0 ≤ Real.pi / 2 :=
  get_grasp_angle_range 1 0 0
    (by rw [atan2_zero_one]; have := Real.pi_pos; linarith)
    (by rw [atan2_zero_one]; have := Real.pi_pos; linarith)

/-- C6 (counterexample): on a stale read the base-joint update does NOT
move the angle away from zero: starting from `1` rad the nudge yields
`1 - π/90`, whose absolute value is smaller than `|1|`, not larger by
2°. -/
theorem nudge_counterexample :
    nudge 1 = 1 - Real.pi / 90 ∧ |nudge 1| < |(1 : ℝ)| := by
  have h4 := Real.pi_lt_d2
  have hpi := Real.pi_pos
  have hval : nudge 1 = 1 - Real.pi / 90 := by
    rw [nudge, Real.sign_one, mul_one]
  refine ⟨hval, ?_⟩
  rw [hval, abs_one, abs_of_pos (by linarith)]
  linarith

/-- C6 (amended): on every stale-or-missing read the commanded
base-joint angle moves 2° (`π/90`) TOWARD zero: whenever the magnitude
is at least 2° it decreases by exactly 2°, and an angle of exactly zero
is left unchanged. -/
theorem nudge_toward_zero :
    (∀ a : ℝ, Real.pi / 90 ≤ |a| → |nudge a| = |a| - Real.pi / 90)
    ∧ nudge 0 = 0 := by
  have hpi := Real.pi_pos
  constructor
  · intro a h
    rcases lt_trichotomy a 0 with ha | ha | ha
    · rw [abs_of_neg ha] at h ⊢
      rw [nudge, Real.sign_of_neg ha]
      have : a - Real.pi / 90 * (-1) = a + Real.pi / 90 := by ring
      rw [this, abs_of_nonpos (by linarith)]
      ring
    · subst ha
      simp only [abs_zero] at h
      linarith
    · rw [abs_of_pos ha] at h ⊢
      rw [nudge, Real.sign_of_pos ha, mul_one]
      rw [abs_of_nonneg (by linarith)]
  · rw [nudge, Real.sign_zero, mul_zero, sub_zero]

/-- Witness for `nudge_toward_zero` at the angle `1` rad. -/
theorem nudge_toward_zero_witness : |nudge 1| = |(1 : ℝ)| - Real.pi / 90 :=
  nudge_toward_zero.1 1 (by
    have h4 := Real.pi_lt_d2
    rw [abs_one]
    linarith)

/-- Calibration environment in which the marker has been seen (the
field is not `None`) but every observation is stale: stamp `0`, clock
`10`, so the age `10 > 1` fails the freshness check at every poll. -/
def staleEnv : CalibEnv :=
  ⟨fun _ => some ⟨0, 2, 3, 4⟩, fun _ => 10, id, (3, 4, 0)⟩

/-- C2 (counterexample): an execution in which none of the 5 polls sees
a fresh observation but the stale marker data is present does NOT return
`(0, 0)`: the estimator computes the drift from the stale observation
(`(1, 1)` here). -/
theorem find_pose_error_counterexample :
    (∀ k < 5, staleAt staleEnv k = true)
    ∧ find_pose_error staleEnv = (1, 1)
    ∧ ((1, 1) : ℚ × ℚ) ≠ (0, 0) := by
  refine ⟨by decide, ?_, by norm_num [Prod.ext_iff]⟩
  show (staleEnv.arTag.1 - 2, staleEnv.arTag.2.1 - 3) = (1, 1)
  norm_num [staleEnv]

/-- C2 (amended): the estimator returns `(0, 0)` when no marker
observation has ever been received (the `marker_data` field reads `None`
at every poll and after the loop); and the enclosing grasp attempt then
continues rather than aborting: with the zero drift the attempt proceeds
through the calibration stage into the corrected pre-grasp and all later
stages (shown for an environment whose motions succeed), shifting the
target only by the fixed offsets.  (With a stale-but-present
observation the code instead estimates drift from the stale data, see
the counterexample.) -/
theorem find_pose_error_soft (env : CalibEnv) (h : ∀ k, env.md k = none) :
    find_pose_error env = (0, 0)
    ∧ ∀ gp : ℝ × ℝ × ℝ,
        grasp (fun _ _ => true) (0, 0) gp =
          (true,
           [GEvent.poseAttempt .preGrasp1 (gp.1, gp.2.1, pregraspHeight) 0 0,
            GEvent.calibrate,
            GEvent.poseAttempt .preGrasp2
              (gp.1 + (0 + xOffset), gp.2.1 + (0 + yOffset), pregraspHeight)
              (get_grasp_angle gp.1 gp.2.1 gp.2.2) 0,
            GEvent.poseAttempt .grasping
              (gp.1 + (0 + xOffset), gp.2.1 + (0 + yOffset), graspHeight)
              (get_grasp_angle gp.1 gp.2.1 gp.2.2) 0,
            GEvent.gripperClose,
            GEvent.poseAttempt .retract
              (gp.1 + (0 + xOffset), gp.2.1 + (0 + yOffset), pregraspHeight)
              (get_grasp_angle gp.1 gp.2.1 gp.2.2) 0]) := by
  constructor
  · simp [find_pose_error, pollStop, staleAt, h]
  · intro gp
    rfl

/-- Calibration environment in which no marker message ever arrives. -/
def noneEnv : CalibEnv := ⟨fun _ => none, fun _ => 0, id, (0, 0, 0)⟩

/-- Witness for `find_pose_error_soft` on `noneEnv`. -/
theorem find_pose_error_soft_witness :
    find_pose_error noneEnv = (0, 0)
    ∧ (grasp (fun _ _ => true) (0, 0) ((1 : ℝ), (2 : ℝ), (3 : ℝ))).1 = true := by
  refine ⟨(find_pose_error_soft noneEnv fun _ => rfl).1, ?_⟩
  rw [(find_pose_error_soft noneEnv fun _ => rfl).2 ((1 : ℝ), (2 : ℝ), (3 : ℝ))]

/-- C7: `reset` attempts the home-then-retract sequence at most 5 times,
stopping at the first success; the gripper-open and camera pan/tilt
recenter commands are issued unconditionally afterwards; the returned
boolean is exactly whether some arm attempt succeeded (the gripper and
camera commands do not influence it). -/
theorem reset_spec (env : ℕ → Bool) :
    armAttempts env ≤ 5
    ∧ (reset env).2 =
        (List.range (armAttempts env)).flatMap
          (fun _ => [REvent.goHome, REvent.setJoints])
          ++ [REvent.gripperOpen, REvent.setPan 0, REvent.setTilt (4/5)]
    ∧ ((List.range (armAttempts env - 1)).all fun k => !env k) = true
    ∧ (reset env).1 = (env 0 || env 1 || env 2 || env 3 || env 4) := by
  cases h0 : env 0 <;> cases h1 : env 1 <;> cases h2 : env 2 <;>
    cases h3 : env 3 <;> cases h4 : env 4 <;>
    simp [reset, resetTries, armAttempts, h0, h1, h2, h3, h4,
      List.range_succ]

lemma setPoseAux_mem (env : Stage → ℕ → Bool) (s : Stage) (pos : ℝ × ℝ × ℝ)
    (roll : ℝ) :
    ∀ (f k : ℕ) (e : GEvent), e ∈ (setPoseAux env s pos roll k f).2 →
      ∃ t, e = GEvent.poseAttempt s pos roll t := by
  intro f
  induction f with
  | zero => intro k e he; simp [setPoseAux] at he
  | succ n ih =>
    intro k e he
    by_cases hk : env s k
    · simp [setPoseAux, hk] at he
      exact ⟨k, he⟩
    · simp only [setPoseAux, hk, Bool.false_eq_true, if_false,
        List.mem_cons] at he
      rcases he with he | he
      · exact ⟨k, he⟩
      · exact ih (k + 1) e he

lemma setPoseAux_fail (env : Stage → ℕ → Bool) (s : Stage) (pos : ℝ × ℝ × ℝ)
    (roll : ℝ) :
    ∀ f k : ℕ, (∀ t, k ≤ t → t < k + f → env s t = false) →
      (setPoseAux env s pos roll k f).1 = false := by
  intro f
  induction f with
  | zero => intro k _; rfl
  | succ n ih =>
    intro k h
    have hk : env s k = false := h k le_rfl (by omega)
    simp only [setPoseAux, hk, Bool.false_eq_true, if_false]
    exact ih (k + 1) fun t h1 h2 => h t (by omega) (by omega)

lemma set_pose_mem (env : Stage → ℕ → Bool) (s : Stage) (pos : ℝ × ℝ × ℝ)
    (roll : ℝ) (e : GEvent) (he : e ∈ (set_pose env s pos roll).2) :
    ∃ t, e = GEvent.poseAttempt s pos roll t :=
  setPoseAux_mem env s pos roll 5 0 e he

lemma set_pose_fail (env : Stage → ℕ → Bool) (s : Stage) (pos : ℝ × ℝ × ℝ)
    (roll : ℝ) (h : ∀ t < 5, env s t = false) :
    (set_pose env s pos roll).1 = false :=
  setPoseAux_fail env s pos roll 5 0 fun t _ h2 => h t (by omega)

lemma eventIdx_set_pose (env : Stage → ℕ → Bool) (s : Stage)
    (pos : ℝ × ℝ × ℝ) (roll : ℝ) (e : GEvent)
    (he : e ∈ (set_pose env s pos roll).2) : eventIdx e = stageIdx s := by
  obtain ⟨t, rfl⟩ := set_pose_mem env s pos roll e he
  rfl

/-- C8: if some stage's pose command fails on all 5 retries, `grasp`
returns `False` and no command of any later stage is issued: every event
in the run's trace sits at or before the failing stage in the order
`PreGrasp1 → Correcting → PreGrasp2 → Grasping → Closing → Retract`. -/
theorem grasp_halts_on_motion_failure (env : Stage → ℕ → Bool)
    (drift : ℝ × ℝ) (gp : ℝ × ℝ × ℝ) (s : Stage)
    (h : ∀ t < 5, env s t = false) :
    (grasp env drift gp).1 = false
    ∧ ∀ e ∈ (grasp env drift gp).2, eventIdx e ≤ stageIdx s := by
  cases s with
  | preGrasp1 =>
    have hf := set_pose_fail env Stage.preGrasp1 (gp.1, gp.2.1, pregraspHeight)
      0 h
    refine ⟨by simp [grasp, hf], fun e he => ?_⟩
    simp [grasp, hf] at he
    rw [eventIdx_set_pose env Stage.preGrasp1 _ _ e he]
  | preGrasp2 =>
    have hf := set_pose_fail env Stage.preGrasp2
      (gp.1 + (drift.1 + xOffset), gp.2.1 + (drift.2 + yOffset),
        pregraspHeight)
      (get_grasp_angle gp.1 gp.2.1 gp.2.2) h
    cases hr1 : (set_pose env Stage.preGrasp1 (gp.1, gp.2.1, pregraspHeight)
        0).1 with
    | false =>
      refine ⟨by simp [grasp, hr1], fun e he => ?_⟩
      simp [grasp, hr1] at he
      rw [eventIdx_set_pose env Stage.preGrasp1 _ _ e he]
      decide
    | true =>
      refine ⟨by simp [grasp, hr1, hf], fun e he => ?_⟩
      simp [grasp, hr1, hf] at he
      rcases he with he | he | he
      · rw [eventIdx_set_pose env Stage.preGrasp1 _ _ e he]; decide
      · subst he; decide
      · rw [eventIdx_set_pose env Stage.preGrasp2 _ _ e he]
  | grasping =>
    have hf := set_pose_fail env Stage.grasping
      (gp.1 + (drift.1 + xOffset), gp.2.1 + (drift.2 + yOffset), graspHeight)
      (get_grasp_angle gp.1 gp.2.1 gp.2.2) h
    cases hr1 : (set_pose env Stage.preGrasp1 (gp.1, gp.2.1, pregraspHeight)
        0).1 with
    | false =>
      refine ⟨by simp [grasp, hr1], fun e he => ?_⟩
      simp [grasp, hr1] at he
      rw [eventIdx_set_pose env Stage.preGrasp1 _ _ e he]
      decide
    | true =>
      cases hr2 : (set_pose env Stage.preGrasp2
          (gp.1 + (drift.1 + xOffset), gp.2.1 + (drift.2 + yOffset),
            pregraspHeight)
          (get_grasp_angle gp.1 gp.2.1 gp.2.2)).1 with
      | false =>
        refine ⟨by simp [grasp, hr1, hr2], fun e he => ?_⟩
        simp [grasp, hr1, hr2] at he
        rcases he with he | he | he
        · rw [eventIdx_set_pose env Stage.preGrasp1 _ _ e he]; decide
        · subst he; decide
        · rw [eventIdx_set_pose env Stage.preGrasp2 _ _ e he]; decide
      | true =>
        refine ⟨by simp [grasp, hr1, hr2, hf], fun e he => ?_⟩
        simp [grasp, hr1, hr2, hf] at he
        rcases he with he | he | he | he
        · rw [eventIdx_set_pose env Stage.preGrasp1 _ _ e he]; decide
        · subst he; decide
        · rw [eventIdx_set_pose env Stage.preGrasp2 _ _ e he]; decide
        · rw [eventIdx_set_pose env Stage.grasping _ _ e he]
  | retract =>
    have hf := set_pose_fail env Stage.retract
      (gp.1 + (drift.1 + xOffset), gp.2.1 + (drift.2 + yOffset),
        pregraspHeight)
      (get_grasp_angle gp.1 gp.2.1 gp.2.2) h
    cases hr1 : (set_pose env Stage.preGrasp1 (gp.1, gp.2.1, pregraspHeight)
        0).1 with
    | false =>
      refine ⟨by simp [grasp, hr1], fun e he => ?_⟩
      simp [grasp, hr1] at he
      rw [eventIdx_set_pose env Stage.preGrasp1 _ _ e he]
      decide
    | true =>
      cases hr2 : (set_pose env Stage.preGrasp2
          (gp.1 + (drift.1 + xOffset), gp.2.1 + (drift.2 + yOffset),
            pregraspHeight)
          (get_grasp_angle gp.1 gp.2.1 gp.2.2)).1 with
      | false =>
        refine ⟨by simp [grasp, hr1, hr2], fun e he => ?_⟩
        simp [grasp, hr1, hr2] at he
        rcases he with he | he | he
        · rw [eventIdx_set_pose env Stage.preGrasp1 _ _ e he]; decide
        · subst he; decide
        · rw [eventIdx_set_pose env Stage.preGrasp2 _ _ e he]; decide
      | true =>
        cases hr3 : (set_pose env Stage.grasping
            (gp.1 + (drift.1 + xOffset), gp.2.1 + (drift.2 + yOffset),
              graspHeight)
            (get_grasp_angle gp.1 gp.2.1 gp.2.2)).1 with
        | false =>
          refine ⟨by simp [grasp, hr1, hr2, hr3], fun e he => ?_⟩
          simp [grasp, hr1, hr2, hr3] at he
          rcases he with he | he | he | he
          · rw [eventIdx_set_pose env Stage.preGrasp1 _ _ e he]; decide
          · subst he; decide
          · rw [eventIdx_set_pose env Stage.preGrasp2 _ _ e he]; decide
          · rw [eventIdx_set_pose env Stage.grasping _ _ e he]; decide
        | true =>
          refine ⟨by simp [grasp, hr1, hr2, hr3, hf], fun e he => ?_⟩
          simp [grasp, hr1, hr2, hr3, hf] at he
          rcases he with he | he | he | he | he
          · rw [eventIdx_set_pose env Stage.preGrasp1 _ _ e he]; decide
          · subst he; decide
          · rw [eventIdx_set_pose env Stage.preGrasp2 _ _ e he]; decide
          · rw [eventIdx_set_pose env Stage.grasping _ _ e he]; decide
          · rcases he with he | he
            · subst he; decide
            · rw [eventIdx_set_pose env Stage.retract _ _ e he]

/-- Environment in which every pose attempt of every stage fails. -/
def failEnv : Stage → ℕ → Bool := fun _ _ => false

/-- Witness for `grasp_halts_on_motion_failure`: with all `grasping`
attempts failing, the run returns `False`. -/
theorem grasp_halts_on_motion_failure_witness :
    (grasp failEnv (0, 0) (1, 0, 0)).1 = false :=
  (grasp_halts_on_motion_failure failEnv (0, 0) (1, 0, 0) Stage.grasping
    fun _ _ => rfl).1

/-- C9 (counterexample): `compute_grasp` does NOT produce a four-element
`[x, y, z, angle]` list: the slice assignment writes only x and y, the
depth z is discarded, and the result keeps three elements
`[x, y, angle]`. -/
theorem compute_grasp_counterexample :
    compute_grasp [1, 2, 7] (fun _ => (10, 20, 30)) ((240, 480), (100, 540))
        = [10, 20, 7]
    ∧ ([10, 20, 7] : List ℚ) ≠ [10, 20, 30, 7] := by
  refine ⟨rfl, fun hcontra => ?_⟩
  have := congrArg List.length hcontra
  simp at this

/-- C9 (amended): after localization `compute_grasp` has mutated the
three-element descriptor `[row, col, angle]` in place into the
three-element list `[x, y, angle]`: the base-frame x/y of the localized
point replace the (crop-shifted) pixel indices, the z coordinate is
discarded, and the angle entry is unchanged. -/
theorem compute_grasp_shape (r c a : ℚ) (get3D : List ℚ → ℚ × ℚ × ℚ)
    (dims : (ℚ × ℚ) × (ℚ × ℚ)) :
    compute_grasp [r, c, a] get3D dims =
      [(get3D [r + dims.1.1, c + dims.2.1]).1,
       (get3D [r + dims.1.1, c + dims.2.1]).2.1, a] := rfl
